import Mathlib

/-!
Verification development for the message parent-chain linking and
validation subsystem (src/src/datalayer/triggers/message_triggers.py,
together with the soft-delete operation of
src/src/datalayer/repository/message_repository.py that the scenarios use).

Common modelling choices.  The Message Store is a list of rows; identifiers
are strings (UUID strings at runtime, hence never empty); created_at is a
natural number used only as an ordering key.  A SQLAlchemy select is
translated conjunct by conjunct into a List.filter over the rows; ORDER BY
created_at DESC LIMIT 1 is a deterministic selection of a row of maximal
created_at.  Python truthiness tests on identifier strings (if x:) are
inequality with the empty string, and Option stands for a nullable value.
Fallible session operations are represented by an Except outcome passed to
the code that consumes them; a Python try/except block that logs and falls
through becomes the Except.error branch of a match.

The development has two layers, because the entity mapping of
sqlalchemy_models.py diverges from the column names the queries spell out.
The mapped columns of chats.message are message_id,
message_conversation_id, message_parent_message_id and created_at; the
attributes conversation_id and parent_message_id are plain Python property
wrappers over those columns, and is_deleted is a read-only property that
returns the constant False and has no backing column at all
(sqlalchemy_models.py lines 466 to 468, comment: not available in current
schema).  Instance-level accesses (message.conversation_id,
message.parent_message_id) go through the working wrappers and behave like
the columns; class-level accesses inside a query, however, denote the
property objects themselves, so the fragments
Message.conversation_id == ... and Message.is_deleted == False evaluate in
Python to the constant False before SQLAlchemy sees them, and are rendered
as the SQL literal false.

Layer one (type Message and the definitions over it) reads each WHERE
conjunct as the column its name denotes — the reading the query text and
the store contract intend, with is_deleted as a real row flag.  This layer
over-approximates the writes the program can perform (its predecessor
query can succeed where the real one cannot), so it is used only for
statements that the over-approximation cannot weaken: invariant
preservation over all possible write outcomes, failure handling quantified
over all lookup and commit outcomes, read-only idempotence of the
validator, and the by-id not-found path of manual repair, whose lookup
uses the genuinely mapped message_id column.

Layer two (type MessageRow and the definitions prefixed actual) embeds the
queries as the program actually evaluates them: the conversation and
is_deleted conjuncts are the constant false, so the predecessor query
matches no row and the linker never assigns a parent, the validator load
matches no row and every call returns the empty report, and
soft_delete_message raises on the unmapped is_deleted column before
touching any row.  The behavioral claims about linking, the example
scenario, coverage and broken-chain counting are settled against this
layer.
-/

/-- Layer-one row: the fields the query text names, with is_deleted as a
real flag.  The actual mapped table has no is_deleted column; see
MessageRow for the runtime-faithful row. -/
structure Message where
  message_id : String
  conversation_id : String
  parent_message_id : Option String
  created_at : Nat
  is_deleted : Bool
deriving Repr, DecidableEq

/-- Python truthiness of a string value (a non-empty string is truthy). -/
def strTruthy (s : String) : Bool := s != ""

/-- Python truthiness of an optional string (None and the empty string are falsy). -/
def optStrTruthy : Option String → Bool
  | none => false
  | some s => strTruthy s

/-- Layer one: the filter of the predecessor query of
set_parent_message_trigger (message_triggers.py lines 27 to 34) under the
column-name reading — same conversation, the id of the target message
excluded, soft-deleted rows excluded.  At runtime the first and third
conjunct are the constant False (see actualCandidatePred); this reading
over-approximates the rows the real query can return. -/
def candidatesFor (store : List Message) (msg : Message) : List Message :=
  store.filter (fun m =>
    m.conversation_id == msg.conversation_id &&
    m.message_id != msg.message_id &&
    m.is_deleted == false)

/-- One step of the maximal-row selection: keep the row seen so far unless
the next row has a strictly larger created_at. -/
def mrStep (acc : Option Message) (m : Message) : Option Message :=
  match acc with
  | none => some m
  | some b => if b.created_at < m.created_at then some m else some b

/-- ORDER BY created_at DESC LIMIT 1 over a row list: a row of maximal
created_at (the first such row in list order when several tie). -/
def mostRecent (l : List Message) : Option Message :=
  l.foldl mrStep none

/-- The full predecessor query (select Message.message_id ... limit 1),
returning the id of the most recent eligible candidate, if any. -/
def lastMessageQuery (store : List Message) (msg : Message) : Option String :=
  (mostRecent (candidatesFor store msg)).map Message.message_id

/-- set_parent_message_trigger (message_triggers.py lines 14 to 48), with
the outcome of the session query passed in explicitly so that the
try/except structure is visible: an error outcome is caught (logged) and
the message is returned unchanged. -/
def setParentMessageTriggerE (q : Except String (Option String)) (msg : Message) : Message :=
  if msg.parent_message_id.isNone && strTruthy msg.conversation_id then
    match q with
    | Except.ok lastId =>
        if optStrTruthy lastId then { msg with parent_message_id := lastId } else msg
    | Except.error _ => msg
  else msg

/-- set_parent_message_trigger against a store whose query succeeds. -/
def set_parent_message_trigger (store : List Message) (msg : Message) : Message :=
  setParentMessageTriggerE (Except.ok (lastMessageQuery store msg)) msg

/-- Layer one: creation of a message followed by the lifecycle linking.
The new row (parent_message_id null, is_deleted false) is flushed into the
store, the trigger computes its parent against the flushed store (which
contains the new row itself, hence the self-exclusion in the query), and
the updated row is persisted.  Used only where a larger set of possible
writes cannot weaken the statement; actualCreateMessage is the
runtime-faithful version, in which the linking step never sets a parent. -/
def createMessage (store : List Message) (id cid : String) (t : Nat) : List Message :=
  let msg : Message := ⟨id, cid, none, t, false⟩
  let flushed := store ++ [msg]
  let linked := set_parent_message_trigger flushed msg
  flushed.map (fun m => if m.message_id == id then linked else m)

/-- manually_set_parent_message (message_triggers.py lines 138 to 172):
fetch the message by id (scalar_one_or_none: none on no match, an exception
caught as failure on more than one match), re-run the trigger on it, commit.
Returns the boolean result together with the resulting store. -/
def manually_set_parent_message (store : List Message) (message_id : String) :
    Bool × List Message :=
  match store.filter (fun m => m.message_id == message_id) with
  | [msg] =>
      let linked := set_parent_message_trigger store msg
      (true, store.map (fun m => if m.message_id == message_id then linked else m))
  | _ => (false, store)

/-- Insertion step of the ascending sort on created_at (stable: a row with
an equal key stays after the rows already placed). -/
def insertByTime (m : Message) : List Message → List Message
  | [] => [m]
  | h :: t => if m.created_at < h.created_at then m :: h :: t else h :: insertByTime m t

/-- ORDER BY created_at ASC over a row list. -/
def sortByTime : List Message → List Message
  | [] => []
  | h :: t => insertByTime h (sortByTime t)

/-- Layer one: the load of validate_parent_message_chain
(message_triggers.py lines 188 to 196) under the column-name reading —
all non-deleted rows of the conversation, ordered by created_at
ascending.  At runtime both WHERE conjuncts are the constant False and
the load returns no rows (see actualLoadConversation). -/
def loadConversation (store : List Message) (cid : String) : List Message :=
  sortByTime (store.filter (fun m => m.conversation_id == cid && m.is_deleted == false))

/-- The broken-chain test of the validator loop (lines 211 to 216): a
message with a truthy parent_message_id whose parent id does not occur
among the loaded messages. -/
def brokenIn (messages : List Message) (m : Message) : Bool :=
  match m.parent_message_id with
  | none => false
  | some pid => strTruthy pid && !(messages.any (fun p => p.message_id == pid))

structure ChainReport where
  valid : Bool
  message_count : Nat
  messages_with_parent : Nat
  broken_chains : Nat
  first_message_valid : Bool
  chain_coverage : ℚ
deriving Repr, DecidableEq

/-- The three return shapes of validate_parent_message_chain: the
empty-conversation dict (line 199), the full report dict (lines 218 to
225), and the error dict (line 229). -/
inductive ValidationResult where
  | emptyReport (valid : Bool) (message_count : Nat) (chain_length : Nat)
  | report (r : ChainReport)
  | errorReport (message : String)
deriving Repr, DecidableEq

/-- The analysis part of validate_parent_message_chain (lines 201 to 225)
on a non-empty ordered message list, split as first message and rest. -/
def chainReportOf (first : Message) (rest : List Message) : ChainReport :=
  let messages := first :: rest
  let total := messages.length
  let withParent := messages.countP (fun m => m.parent_message_id.isSome)
  let firstValid := first.parent_message_id.isNone
  let broken := rest.countP (brokenIn messages)
  { valid := broken == 0 && firstValid
    message_count := total
    messages_with_parent := withParent
    broken_chains := broken
    first_message_valid := firstValid
    chain_coverage := (withParent : ℚ) / ((max (total - 1) 1 : ℕ) : ℚ) * 100 }

/-- Layer one: validate_parent_message_chain (message_triggers.py lines
175 to 229) under the column-name reading of its load.  Used for the
read-only idempotence claim, which does not depend on which rows the load
returns; actual_validate_parent_message_chain is the runtime-faithful
version. -/
def validate_parent_message_chain (store : List Message) (cid : String) :
    ValidationResult :=
  match loadConversation store cid with
  | [] => ValidationResult.emptyReport true 0 0
  | first :: rest => ValidationResult.report (chainReportOf first rest)

/-- The validator threaded through the session state: its body performs a
single SELECT and no update, flush or commit, so the store passes through
unchanged. -/
def validateRun (store : List Message) (cid : String) :
    ValidationResult × List Message :=
  (validate_parent_message_chain store cid, store)

/-- Session state: the rows of the last committed transaction and the
current working view of the session. -/
structure Db where
  committed : List Message
  current : List Message
deriving Repr, DecidableEq

/-- _update_parent_messages (message_triggers.py lines 116 to 135): each
pending message is re-linked with the outcome of its predecessor query,
then the session commits; a failure of the commit is caught and the
session rolls back to the last committed state.  The pending messages are
given by id, the query outcomes and the commit outcome are passed in
explicitly.  The task runs after the transaction of the caller has
committed the inserted rows (after_flush schedules it on the running
event loop), so the rows it touches are already durable. -/
def updateParentMessagesE (q : String → Except String (Option String))
    (commitOk : Bool) (ids : List String) (db : Db) : Db :=
  let cur := ids.foldl (fun cur mid =>
    cur.map (fun m =>
      if m.message_id == mid then setParentMessageTriggerE (q mid) m else m)) db.current
  if commitOk then ⟨cur, cur⟩ else ⟨db.committed, db.committed⟩

/-- The operations of the subsystem that write parent links: creation with
lifecycle linking, and manual repair. -/
inductive ChainOp where
  | create (id cid : String) (t : Nat)
  | repair (id : String)
deriving Repr, DecidableEq

def applyChainOp (store : List Message) : ChainOp → List Message
  | ChainOp.create id cid t => createMessage store id cid t
  | ChainOp.repair id => (manually_set_parent_message store id).2

/-- No stored row references itself as parent. -/
def NoSelfParent (store : List Message) : Prop :=
  ∀ m ∈ store, m.parent_message_id ≠ some m.message_id

/-! ## Helper lemmas -/

theorem map_id_on {α : Type} (l : List α) (f : α → α) (h : ∀ x ∈ l, f x = x) :
    l.map f = l := by
  induction l with
  | nil => rfl
  | cons a t ih =>
      simp only [List.map_cons, h a (List.mem_cons_self a t)]
      rw [ih (fun x hx => h x (List.mem_cons_of_mem a hx))]

theorem foldl_mrStep_spec (l : List Message) (b : Message) :
    ∃ c, l.foldl mrStep (some b) = some c ∧ (c = b ∨ c ∈ l) ∧
      b.created_at ≤ c.created_at ∧ ∀ x ∈ l, x.created_at ≤ c.created_at := by
  induction l generalizing b with
  | nil => exact ⟨b, rfl, Or.inl rfl, le_refl _, by simp⟩
  | cons h t ih =>
      by_cases hlt : b.created_at < h.created_at
      · obtain ⟨c, hc, hmem, hle, hall⟩ := ih h
        refine ⟨c, ?_, ?_, le_of_lt (lt_of_lt_of_le hlt hle), ?_⟩
        · simpa [mrStep, if_pos hlt] using hc
        · rcases hmem with rfl | hm
          · exact Or.inr (List.mem_cons_self _ _)
          · exact Or.inr (List.mem_cons_of_mem _ hm)
        · intro x hx
          rcases List.mem_cons.mp hx with rfl | hxt
          · exact hle
          · exact hall x hxt
      · obtain ⟨c, hc, hmem, hle, hall⟩ := ih b
        refine ⟨c, ?_, ?_, hle, ?_⟩
        · simpa [mrStep, if_neg hlt] using hc
        · rcases hmem with rfl | hm
          · exact Or.inl rfl
          · exact Or.inr (List.mem_cons_of_mem _ hm)
        · intro x hx
          rcases List.mem_cons.mp hx with rfl | hxt
          · exact le_trans (le_of_not_lt hlt) hle
          · exact hall x hxt

theorem mostRecent_spec (l : List Message) (hne : l ≠ []) :
    ∃ c, mostRecent l = some c ∧ c ∈ l ∧ ∀ x ∈ l, x.created_at ≤ c.created_at := by
  cases l with
  | nil => exact absurd rfl hne
  | cons h t =>
      obtain ⟨c, hc, hmem, hle, hall⟩ := foldl_mrStep_spec t h
      refine ⟨c, ?_, ?_, ?_⟩
      · simpa [mostRecent, mrStep] using hc
      · rcases hmem with rfl | hm
        · exact List.mem_cons_self _ _
        · exact List.mem_cons_of_mem _ hm
      · intro x hx
        rcases List.mem_cons.mp hx with rfl | hxt
        · exact hle
        · exact hall x hxt

theorem mostRecent_mem (l : List Message) (c : Message) (h : mostRecent l = some c) :
    c ∈ l := by
  cases l with
  | nil => simp [mostRecent] at h
  | cons a t =>
      obtain ⟨c', hc', hmem, _⟩ := mostRecent_spec (a :: t) (by simp)
      rw [h] at hc'
      cases hc'
      exact hmem

theorem setParentMessageTriggerE_id (q : Except String (Option String)) (msg : Message) :
    (setParentMessageTriggerE q msg).message_id = msg.message_id := by
  unfold setParentMessageTriggerE
  split
  · split
    · split <;> rfl
    · rfl
  · rfl

theorem lastMessageQuery_ne_self (store : List Message) (msg : Message) (p : String)
    (h : lastMessageQuery store msg = some p) : p ≠ msg.message_id := by
  unfold lastMessageQuery at h
  cases hm : mostRecent (candidatesFor store msg) with
  | none => rw [hm] at h; simp at h
  | some c =>
      rw [hm] at h
      simp only [Option.map_some'] at h
      have hmem := mostRecent_mem _ _ hm
      unfold candidatesFor at hmem
      have hprop := List.mem_filter.mp hmem
      have hne : c.message_id ≠ msg.message_id := by
        have h2 := hprop.2
        simp only [Bool.and_eq_true, bne_iff_ne, beq_iff_eq] at h2
        exact h2.1.2
      cases h
      exact hne

def c2Store : List Message := [⟨"a", "c", none, 1, false⟩]
/-! ## Claim C9 -/

/-- Claim C9: for a message id that matches no stored row, manual repair
returns false (a value, not a propagated exception — the embedded
function is total and its failure is the boolean result) and the store is
unchanged. -/
theorem c9_repair_not_found (store : List Message) (mid : String)
    (h : ∀ m ∈ store, m.message_id ≠ mid) :
    manually_set_parent_message store mid = (false, store) := by
  unfold manually_set_parent_message
  have hfil : store.filter (fun m => m.message_id == mid) = [] := by
    rw [List.filter_eq_nil_iff]
    intro a ha
    simp only [beq_iff_eq]
    exact h a ha
  rw [hfil]

/-- Witness for claim C9 at a concrete store and a missing id. -/
theorem c9_repair_not_found_witness :
    (∀ m ∈ c2Store, m.message_id ≠ "zz") ∧
    manually_set_parent_message c2Store "zz" = (false, c2Store) :=
  ⟨by decide, c9_repair_not_found c2Store "zz" (by decide)⟩

/-! ## Claim C8 -/

/-- Claim C8: the validator is read-only and idempotent.  Its body
performs a single SELECT and no update, flush or commit (lines 186 to
229), so threaded through the session state it returns the store
unchanged, and two consecutive runs on an unchanged conversation produce
equal reports. -/
theorem c8_validator_read_only_idempotent (store : List Message) (cid : String) :
    (validateRun store cid).2 = store ∧
    (validateRun store cid).1 = (validateRun (validateRun store cid).2 cid).1 :=
  ⟨rfl, rfl⟩

/-! ## Claim C4 -/

theorem map_message_id_update (l : List Message) (f : Message → Message)
    (hf : ∀ m, (f m).message_id = m.message_id) :
    (l.map f).map Message.message_id = l.map Message.message_id := by
  induction l with
  | nil => rfl
  | cons a t ih => simp only [List.map_cons, hf a, ih]

theorem foldl_update_preserves_ids (q : String → Except String (Option String))
    (ids : List String) (cur : List Message) :
    (ids.foldl (fun cur mid =>
      cur.map (fun m =>
        if m.message_id == mid then setParentMessageTriggerE (q mid) m else m)) cur).map
          Message.message_id = cur.map Message.message_id := by
  induction ids generalizing cur with
  | nil => rfl
  | cons i t ih =>
      simp only [List.foldl_cons]
      rw [ih]
      apply map_message_id_update
      intro m
      by_cases h : m.message_id == i
      · rw [if_pos h]
        exact setParentMessageTriggerE_id _ _
      · rw [if_neg h]

/-- Claim C4: linking is subordinate to message persistence.  Every
failure outcome of the predecessor lookup is caught inside the linker,
which then returns the message unchanged instead of propagating the
error; and for every combination of lookup outcomes and commit outcome of
the deferred update task — including lookup errors and a failed commit
followed by rollback — the committed store still contains the row of
every message that was persisted before the task ran. -/
theorem c4_linking_subordinate (q : String → Except String (Option String))
    (commitOk : Bool) (ids : List String) (db : Db) (mid : String)
    (hsync : db.current.map Message.message_id = db.committed.map Message.message_id)
    (hm : mid ∈ db.committed.map Message.message_id) :
    (∀ (e : String) (msg : Message), setParentMessageTriggerE (Except.error e) msg = msg) ∧
    mid ∈ (updateParentMessagesE q commitOk ids db).committed.map Message.message_id := by
  constructor
  · intro e msg
    unfold setParentMessageTriggerE
    split
    · rfl
    · rfl
  · cases commitOk with
    | true =>
        show mid ∈ (ids.foldl (fun cur mid =>
          cur.map (fun m =>
            if m.message_id == mid then setParentMessageTriggerE (q mid) m else m))
              db.current).map Message.message_id
        rw [foldl_update_preserves_ids, hsync]
        exact hm
    | false => exact hm

def c4Db : Db := ⟨[⟨"w", "c", none, 1, false⟩], [⟨"w", "c", none, 1, false⟩]⟩

/-- Witness for claim C4: a store whose lookup always fails and whose
commit fails too; the persisted row survives. -/
theorem c4_linking_subordinate_witness :
    (c4Db.current.map Message.message_id = c4Db.committed.map Message.message_id ∧
      "w" ∈ c4Db.committed.map Message.message_id) ∧
    ((∀ (e : String) (msg : Message), setParentMessageTriggerE (Except.error e) msg = msg) ∧
      "w" ∈ (updateParentMessagesE (fun _ => Except.error "store unavailable")
        false ["w"] c4Db).committed.map Message.message_id) :=
  ⟨⟨rfl, by decide⟩,
   c4_linking_subordinate (fun _ => Except.error "store unavailable")
     false ["w"] c4Db "w" rfl (by decide)⟩

/-! ## Claim C7 -/

theorem trigger_parent_cases (s : List Message) (msg : Message) :
    set_parent_message_trigger s msg = msg ∨
    ∃ pid, lastMessageQuery s msg = some pid ∧
      set_parent_message_trigger s msg = { msg with parent_message_id := some pid } ∧
      msg.parent_message_id = none := by
  unfold set_parent_message_trigger setParentMessageTriggerE
  by_cases hcond : (msg.parent_message_id.isNone && strTruthy msg.conversation_id) = true
  · rw [if_pos hcond]
    have hpn : msg.parent_message_id = none := by
      simp only [Bool.and_eq_true] at hcond
      exact Option.isNone_iff_eq_none.mp hcond.1
    cases hq : lastMessageQuery s msg with
    | none => left; rfl
    | some pid =>
        by_cases ht : strTruthy pid = true
        · right
          refine ⟨pid, rfl, ?_, hpn⟩
          show (if optStrTruthy (some pid) then _ else _) = _
          simp [optStrTruthy, ht]
        · left
          show (if optStrTruthy (some pid) then _ else _) = _
          simp [optStrTruthy, ht]
  · left
    rw [if_neg hcond]

theorem trigger_preserves_no_self (s : List Message) (msg : Message)
    (h : msg.parent_message_id ≠ some msg.message_id) :
    (set_parent_message_trigger s msg).parent_message_id ≠
      some (set_parent_message_trigger s msg).message_id := by
  rcases trigger_parent_cases s msg with heq | ⟨pid, hq, heq, _⟩
  · rw [heq]
    exact h
  · rw [heq]
    intro hcontra
    exact lastMessageQuery_ne_self s msg pid hq (Option.some.inj hcontra)

theorem applyChainOp_preserves (store : List Message) (op : ChainOp)
    (h : NoSelfParent store) : NoSelfParent (applyChainOp store op) := by
  cases op with
  | create id cid t =>
      intro m hm
      unfold applyChainOp createMessage at hm
      simp only [List.mem_map] at hm
      obtain ⟨x, hx, hfx⟩ := hm
      by_cases hxid : (x.message_id == id) = true
      · rw [← hfx, if_pos hxid]
        apply trigger_preserves_no_self
        simp
      · rw [← hfx, if_neg hxid]
        rcases List.mem_append.mp hx with hxs | hxm
        · exact h x hxs
        · rw [List.mem_singleton] at hxm
          subst hxm
          simp
  | repair id =>
      intro m hm
      unfold applyChainOp manually_set_parent_message at hm
      dsimp only at hm
      cases hfil : store.filter (fun m => m.message_id == id) with
      | nil =>
          rw [hfil] at hm
          exact h m hm
      | cons a t =>
          cases t with
          | nil =>
              rw [hfil] at hm
              simp only [List.mem_map] at hm
              obtain ⟨x, hx, hfx⟩ := hm
              by_cases hxid : (x.message_id == id) = true
              · rw [← hfx, if_pos hxid]
                apply trigger_preserves_no_self
                have ha : a ∈ store := by
                  apply List.mem_of_mem_filter (p := fun m => m.message_id == id)
                  rw [hfil]
                  exact List.mem_cons_self a []
                exact h a ha
              · rw [← hfx, if_neg hxid]
                exact h x hx
          | cons b t2 =>
              rw [hfil] at hm
              exact h m hm

/-- Claim C7: neither the linker nor the repair path ever sets the parent
of a message to its own id — if the linked message carries its own id as
parent, that link was already there before — and the no-self-reference
invariant is preserved by every sequence of create-and-link and repair
operations. -/
theorem c7_no_self_reference (store : List Message) (ops : List ChainOp)
    (h : NoSelfParent store) :
    NoSelfParent (ops.foldl applyChainOp store) ∧
    (∀ (s : List Message) (msg : Message),
      (set_parent_message_trigger s msg).parent_message_id = some msg.message_id →
      msg.parent_message_id = some msg.message_id) := by
  constructor
  · induction ops generalizing store with
    | nil => exact h
    | cons op t ih => exact ih _ (applyChainOp_preserves store op h)
  · intro s msg hset
    rcases trigger_parent_cases s msg with heq | ⟨pid, hq, heq, _⟩
    · rw [heq] at hset
      exact hset
    · rw [heq] at hset
      exact absurd (Option.some.inj hset)
        (fun hpe => lastMessageQuery_ne_self s msg pid hq hpe)

def c7Store : List Message := [⟨"a", "c", none, 1, false⟩]

def c7Ops : List ChainOp := [ChainOp.create "b" "c" 2, ChainOp.repair "a"]

/-- Witness for claim C7: one creation with linking and one repair on a
concrete store. -/
theorem c7_no_self_reference_witness :
    NoSelfParent c7Store ∧
    (NoSelfParent (c7Ops.foldl applyChainOp c7Store) ∧
    (∀ (s : List Message) (msg : Message),
      (set_parent_message_trigger s msg).parent_message_id = some msg.message_id →
      msg.parent_message_id = some msg.message_id)) :=
  ⟨by unfold NoSelfParent; decide, c7_no_self_reference c7Store c7Ops (by unfold NoSelfParent; decide)⟩

/-! ## Layer two: the queries as the program evaluates them -/

/-- The row of chats.message as actually mapped: message_id,
message_conversation_id (read and written through the working
conversation_id property wrapper), message_parent_message_id (through the
parent_message_id wrapper) and created_at.  There is no is_deleted
column. -/
structure MessageRow where
  message_id : String
  conversation_id : String
  parent_message_id : Option String
  created_at : Nat
deriving Repr, DecidableEq

/-- The WHERE clause of the predecessor query as evaluated at runtime
(message_triggers.py lines 29 to 31): the first conjunct
(Message.conversation_id == ...) and the third (Message.is_deleted ==
False) compare plain property objects and are the Python constant False,
rendered as the SQL literal false; only the middle conjunct
(Message.message_id != ...) is a real column expression. -/
def actualCandidatePred (msg : MessageRow) (m : MessageRow) : Bool :=
  false && (m.message_id != msg.message_id) && false

/-- Maximal-row selection step on actual rows (ORDER BY created_at DESC
LIMIT 1). -/
def mrStepRow (acc : Option MessageRow) (m : MessageRow) : Option MessageRow :=
  match acc with
  | none => some m
  | some b => if b.created_at < m.created_at then some m else some b

def mostRecentRow (l : List MessageRow) : Option MessageRow :=
  l.foldl mrStepRow none

/-- The predecessor query as executed: the degenerate WHERE clause applied
to the store, then ORDER BY created_at DESC LIMIT 1, selecting
message_id. -/
def actualLastMessageQuery (store : List MessageRow) (msg : MessageRow) : Option String :=
  (mostRecentRow (store.filter (actualCandidatePred msg))).map MessageRow.message_id

/-- set_parent_message_trigger (message_triggers.py lines 14 to 48) as
executed: the instance-level checks (message.parent_message_id is None,
truthiness of message.conversation_id) read real columns through the
working wrappers; the query is the degenerate one above. -/
def actualSetParentMessageTrigger (store : List MessageRow) (msg : MessageRow) : MessageRow :=
  if msg.parent_message_id.isNone && strTruthy msg.conversation_id then
    let lastId := actualLastMessageQuery store msg
    if optStrTruthy lastId then { msg with parent_message_id := lastId } else msg
  else msg

/-- Creation of a message followed by the lifecycle linking, as executed:
flush the new row, run the trigger against the flushed store, persist the
(in fact unchanged) row. -/
def actualCreateMessage (store : List MessageRow) (id cid : String) (t : Nat) :
    List MessageRow :=
  let msg : MessageRow := ⟨id, cid, none, t⟩
  let flushed := store ++ [msg]
  let linked := actualSetParentMessageTrigger flushed msg
  flushed.map (fun m => if m.message_id == id then linked else m)

/-- manually_set_parent_message (message_triggers.py lines 138 to 172) as
executed: the by-id lookup uses the genuinely mapped message_id column
(none on no match, an exception caught as failure on more than one
match), then the trigger is re-run and the session commits. -/
def actual_manually_set_parent_message (store : List MessageRow) (message_id : String) :
    Bool × List MessageRow :=
  match store.filter (fun m => m.message_id == message_id) with
  | [msg] =>
      let linked := actualSetParentMessageTrigger store msg
      (true, store.map (fun m => if m.message_id == message_id then linked else m))
  | _ => (false, store)

/-- soft_delete_message (message_repository.py lines 176 to 189) as
executed: update(...).values passes is_deleted, which names no mapped
column, so session.execute raises (unconsumed column names) before any
row is touched; the method has no exception handler, the error propagates
and no commit happens.  The result pairs the raised error with the
unchanged store. -/
def actual_soft_delete_message (store : List MessageRow) (_message_id : String) :
    Except String Bool × List MessageRow :=
  (Except.error "Unconsumed column names: is_deleted", store)

/-- The WHERE clause of the validator load as evaluated at runtime
(message_triggers.py lines 190 to 191): both conjuncts
(Message.conversation_id == ..., Message.is_deleted == False) are the
Python constant False. -/
def actualLoadPred (_m : MessageRow) : Bool :=
  false && false

def insertRowByTime (m : MessageRow) : List MessageRow → List MessageRow
  | [] => [m]
  | h :: t => if m.created_at < h.created_at then m :: h :: t else h :: insertRowByTime m t

def sortRowsByTime : List MessageRow → List MessageRow
  | [] => []
  | h :: t => insertRowByTime h (sortRowsByTime t)

/-- The load of validate_parent_message_chain (lines 188 to 196) as
executed: the degenerate WHERE clause, then ORDER BY created_at ASC. -/
def actualLoadConversation (store : List MessageRow) (_cid : String) : List MessageRow :=
  sortRowsByTime (store.filter actualLoadPred)

/-- The broken-chain test of the validator loop (lines 211 to 216) on
actual rows. -/
def brokenInRow (messages : List MessageRow) (m : MessageRow) : Bool :=
  match m.parent_message_id with
  | none => false
  | some pid => strTruthy pid && !(messages.any (fun p => p.message_id == pid))

/-- The analysis part of the validator (lines 201 to 225) on actual rows;
in the program this code is unreachable because the load never returns a
row. -/
def chainReportOfRow (first : MessageRow) (rest : List MessageRow) : ChainReport :=
  let messages := first :: rest
  let total := messages.length
  let withParent := messages.countP (fun m => m.parent_message_id.isSome)
  let firstValid := first.parent_message_id.isNone
  let broken := rest.countP (brokenInRow messages)
  { valid := broken == 0 && firstValid
    message_count := total
    messages_with_parent := withParent
    broken_chains := broken
    first_message_valid := firstValid
    chain_coverage := (withParent : ℚ) / ((max (total - 1) 1 : ℕ) : ℚ) * 100 }

/-- validate_parent_message_chain (lines 175 to 229) as executed. -/
def actual_validate_parent_message_chain (store : List MessageRow) (cid : String) :
    ValidationResult :=
  match actualLoadConversation store cid with
  | [] => ValidationResult.emptyReport true 0 0
  | first :: rest => ValidationResult.report (chainReportOfRow first rest)

/-- The parent_message_id of the stored row with a given id, if the row
exists (point lookup to observe a store after an operation). -/
def actualGetParent (store : List MessageRow) (id : String) : Option (Option String) :=
  (store.find? (fun m => m.message_id == id)).map MessageRow.parent_message_id

/-- The message_count entry of the returned dict, when the dict has one
(the error shape of line 229 has no message_count key). -/
def reportedMessageCount : ValidationResult → Option Nat
  | ValidationResult.emptyReport _ n _ => some n
  | ValidationResult.report r => some r.message_count
  | ValidationResult.errorReport _ => none

/-- The broken_chains entry of the returned dict, when the dict has one
(only the full report of lines 218 to 225 has it). -/
def reportedBrokenChains : ValidationResult → Option Nat
  | ValidationResult.report r => some r.broken_chains
  | _ => none

/-- The chain_coverage entry of the returned dict, when the dict has one
(only the full report of lines 218 to 225 has it). -/
def reportedChainCoverage : ValidationResult → Option ℚ
  | ValidationResult.report r => some r.chain_coverage
  | _ => none

/-! ## Layer-two helper lemmas -/

theorem actualCandidatePred_false (msg m : MessageRow) :
    actualCandidatePred msg m = false := by
  simp [actualCandidatePred]

theorem actualLastMessageQuery_none (store : List MessageRow) (msg : MessageRow) :
    actualLastMessageQuery store msg = none := by
  unfold actualLastMessageQuery
  have h : store.filter (actualCandidatePred msg) = [] := by
    rw [List.filter_eq_nil_iff]
    intro a _
    simp [actualCandidatePred]
  rw [h]
  rfl

theorem actualTrigger_unchanged (store : List MessageRow) (msg : MessageRow) :
    actualSetParentMessageTrigger store msg = msg := by
  unfold actualSetParentMessageTrigger
  rw [actualLastMessageQuery_none]
  split
  · rfl
  · rfl

theorem actualLoadConversation_nil (store : List MessageRow) (cid : String) :
    actualLoadConversation store cid = [] := by
  unfold actualLoadConversation
  have h : store.filter actualLoadPred = [] := by
    rw [List.filter_eq_nil_iff]
    intro a _
    simp [actualLoadPred]
  rw [h]
  rfl

theorem actualValidate_empty (store : List MessageRow) (cid : String) :
    actual_validate_parent_message_chain store cid =
      ValidationResult.emptyReport true 0 0 := by
  unfold actual_validate_parent_message_chain
  rw [actualLoadConversation_nil]

/-! ## Claim C2 -/

def c2ActualMsg : MessageRow := ⟨"m2", "c1", none, 2⟩

def c2ActualFlushed : List MessageRow := [⟨"m1", "c1", none, 1⟩, ⟨"m2", "c1", none, 2⟩]

/-- Claim C2, settled against the code as executed: the linker never sets
parent_message_id.  At the concrete failing input — a flushed store
holding m1 and the new message m2 in the same conversation, so that an
eligible predecessor exists — the degenerate predecessor query returns no
row and m2 keeps a null parent; and in general the trigger leaves the
parent of every message unchanged, contradicting the claimed
postcondition (and the docstring of the trigger itself). -/
theorem c2_linker_never_links :
    ((actualSetParentMessageTrigger c2ActualFlushed c2ActualMsg).parent_message_id = none ∧
     actualLastMessageQuery c2ActualFlushed c2ActualMsg = none ∧
     c2ActualFlushed.any (fun m =>
       m.conversation_id == c2ActualMsg.conversation_id &&
       m.message_id != c2ActualMsg.message_id) = true) ∧
    ∀ (store : List MessageRow) (msg : MessageRow),
      (actualSetParentMessageTrigger store msg).parent_message_id =
        msg.parent_message_id := by
  refine ⟨⟨by decide, by decide, by decide⟩, ?_⟩
  intro store msg
  rw [actualTrigger_unchanged]

/-! ## Claim C6 -/

def c6ActualS3 : List MessageRow :=
  actualCreateMessage (actualCreateMessage
    (actualCreateMessage [] "m1" "c1" 1) "m2" "c1" 2) "m3" "c1" 3

/-- Claim C6, settled against the code as executed: after three messages
are created in strict sequence in a brand-new conversation, all three end
with parent_message_id null — the predecessor query of the linker matches
no rows, so no chain is ever built (the claimed B.parent_id == A.id and
C.parent_id == B.id fail; only the first-message-null part holds, and
only vacuously). -/
theorem c6_sequential_creation_never_links :
    actualGetParent c6ActualS3 "m1" = some none ∧
    actualGetParent c6ActualS3 "m2" = some none ∧
    actualGetParent c6ActualS3 "m3" = some none := by
  refine ⟨?_, ?_, ?_⟩ <;> decide

/-! ## Claim C3 -/

def c3ActualS2 : List MessageRow :=
  actualCreateMessage (actualCreateMessage [] "m1" "c1" 1) "m2" "c1" 2

def c3ActualS3 : List MessageRow := actualCreateMessage c3ActualS2 "m3" "c1" 3

/-- Counterexample to claim C3: at the end of the example scenario the
validator does not report message_count = 2 — the returned dict carries
message_count = 0. -/
theorem c3_scenario_counterexample :
    reportedMessageCount (actual_validate_parent_message_chain c3ActualS3 "c1") =
      some 0 := by
  decide

/-- Claim C3 as amended: in the example scenario the soft-delete of M1
fails with an exception (is_deleted names no mapped column) and leaves
every row untouched, the created messages never receive a parent link
(M2 included), and validate_chain(C1) returns the empty-conversation
report valid = true, message_count = 0, chain_length = 0, because its
load query matches no rows. -/
theorem c3_scenario_actual_report :
    actual_soft_delete_message c3ActualS2 "m1" =
      (Except.error "Unconsumed column names: is_deleted", c3ActualS2) ∧
    actual_validate_parent_message_chain c3ActualS3 "c1" =
      ValidationResult.emptyReport true 0 0 ∧
    actualGetParent c3ActualS3 "m2" = some none := by
  refine ⟨rfl, actualValidate_empty _ _, by decide⟩

/-! ## Claim C5 -/

def c5ActualStore : List MessageRow :=
  [⟨"a", "c", some "b", 0⟩, ⟨"b", "c", some "a", 1⟩]

/-- Counterexample to claim C5: a non-empty conversation for which the
validator reports no chain_coverage value at all — the result is the
empty report, which has no chain_coverage entry, so no value equal to the
claimed formula (or lying in 0 to 100) is produced. -/
theorem c5_actual_counterexample :
    c5ActualStore.any (fun m => m.conversation_id == "c") = true ∧
    reportedChainCoverage (actual_validate_parent_message_chain c5ActualStore "c") =
      none := by
  refine ⟨?_, ?_⟩ <;> decide

/-- Claim C5 as amended: the validator never produces a chain_coverage
value.  For every store and conversation — non-empty conversations
included — the degenerate load returns no rows and the call returns the
empty report valid = true, message_count = 0, chain_length = 0; the
branch that computes chain_coverage (lines 218 to 225) is unreachable. -/
theorem c5_validator_reports_no_coverage (store : List MessageRow) (cid : String) :
    actual_validate_parent_message_chain store cid =
      ValidationResult.emptyReport true 0 0 ∧
    reportedChainCoverage (actual_validate_parent_message_chain store cid) = none := by
  refine ⟨actualValidate_empty store cid, ?_⟩
  rw [actualValidate_empty]
  rfl

/-! ## Claim C10 -/

def c10ActualStore : List MessageRow :=
  [⟨"a", "c", none, 1⟩, ⟨"b", "c", some "zz", 2⟩]

/-- Claim C10, settled against the code as executed: the validator loads
no rows for any conversation, so the broken-chain loop never runs and no
broken_chains value is ever produced or incremented.  At the concrete
failing input — a conversation whose non-earliest message b carries the
dangling parent id zz, which the loop test would flag as broken had the
row been loaded — the load is empty and the result carries no
broken_chains entry. -/
theorem c10_validator_counts_nothing :
    (actualLoadConversation c10ActualStore "c" = [] ∧
     reportedBrokenChains (actual_validate_parent_message_chain c10ActualStore "c") =
       none ∧
     brokenInRow c10ActualStore ⟨"b", "c", some "zz", 2⟩ = true) ∧
    ∀ (store : List MessageRow) (cid : String),
      actualLoadConversation store cid = [] ∧
      reportedBrokenChains (actual_validate_parent_message_chain store cid) = none := by
  refine ⟨⟨by decide, by decide, by decide⟩, ?_⟩
  intro store cid
  refine ⟨actualLoadConversation_nil store cid, ?_⟩
  rw [actualValidate_empty]
  rfl

/-! ## Claim C1 -/

def c1ActualStore : List MessageRow :=
  [⟨"m1", "c1", some "zz", 2⟩, ⟨"m2", "c1", none, 1⟩]

def c1ActualRow : MessageRow := ⟨"m1", "c1", some "zz", 2⟩

/-- Counterexample to claim C1: message m1 exists with the stale parent
link zz while another message of the same conversation exists; manual
repair returns true but leaves the store — and hence the stale link —
unchanged, so nothing is recomputed or persisted. -/
theorem c1_actual_counterexample :
    actual_manually_set_parent_message c1ActualStore "m1" = (true, c1ActualStore) ∧
    actualGetParent c1ActualStore "m1" = some (some "zz") ∧
    c1ActualStore.any (fun m =>
      m.message_id == "m2" && m.conversation_id == "c1") = true := by
  refine ⟨?_, ?_, ?_⟩ <;> decide

/-- Claim C1 as amended: manual repair does not bypass the
already-has-parent short-circuit and never rewrites any stored parent
link.  It re-runs set_parent_message_trigger, whose first check skips any
message with a non-null parent_id and whose predecessor query in any case
matches no rows; so for every message id that resolves to exactly one
stored row the call returns true and leaves the store unchanged. -/
theorem c1_repair_never_rewrites (store : List MessageRow) (mid : String)
    (msg : MessageRow)
    (hfind : store.filter (fun m => m.message_id == mid) = [msg]) :
    actual_manually_set_parent_message store mid = (true, store) := by
  have hmap : store.map (fun m =>
      if m.message_id == mid then actualSetParentMessageTrigger store msg else m)
        = store := by
    apply map_id_on
    intro x hx
    by_cases hxm : (x.message_id == mid) = true
    · have hxmem : x ∈ store.filter (fun m => m.message_id == mid) :=
        List.mem_filter.mpr ⟨hx, hxm⟩
      rw [hfind] at hxmem
      rw [List.mem_singleton] at hxmem
      rw [if_pos hxm, hxmem, actualTrigger_unchanged]
    · rw [if_neg hxm]
  unfold actual_manually_set_parent_message
  rw [hfind]
  show (true, store.map (fun m =>
    if m.message_id == mid then actualSetParentMessageTrigger store msg else m))
      = (true, store)
  rw [hmap]

/-- Witness for the amended claim C1 at a concrete store. -/
theorem c1_repair_never_rewrites_witness :
    (c1ActualStore.filter (fun m => m.message_id == "m1") = [c1ActualRow]) ∧
    actual_manually_set_parent_message c1ActualStore "m1" = (true, c1ActualStore) :=
  ⟨by decide, c1_repair_never_rewrites c1ActualStore "m1" c1ActualRow (by decide)⟩
